import Mathlib

/-
Verification of the RouterOS terraform provider fragment:
the `/ip/service` resource (src/routeros/resource_ip_service.go) and the
SSH importer helpers (src/tools/importer/ssh.go), shallowly embedded in Lean.
-/

set_option autoImplicit false
set_option linter.unusedVariables false

namespace RouterOS

/-- Severity of a diagnostic returned by a CRUD handler. Modelled from the
terraform-plugin-sdk diag package used by the source: a diagnostic is either
an Error (hard failure of the operation) or a Warning (informational). -/
inductive Severity where
  | error
  | warning
  deriving DecidableEq, Repr

/-- A single diagnostic: severity plus summary message. -/
structure Diagnostic where
  severity : Severity
  summary : String
  deriving DecidableEq, Repr

/-- Modelled from the spec: the SDK helper diag.FromErr wraps an error into a
single Error-severity diagnostic carrying the error message. -/
def diagFromErr (msg : String) : List Diagnostic :=
  [⟨Severity.error, msg⟩]

/-- Modelled from the spec: the package-level error value errorNoLongerExists
(the "no longer exists" condition surfaced when a read finds zero matches).
Only its identity matters here, not the exact message text. -/
def errorNoLongerExists : String :=
  "resource no longer exists"

/-- A Device Item: the device's native attribute-value representation of one
object instance (an association list of attribute name to string value). -/
abbrev DeviceItem := List (String × String)

/-- Modelled from the spec: GetID with the Id key returns the item's ".id"
attribute (the identifier key, ".id" by convention, always present on items
produced by a read query; absent keys give the empty string). -/
def DeviceItem.getID (item : DeviceItem) : String :=
  (item.lookup ".id").getD ""

/-- Transport selected by the client; the source branches on TransportREST. -/
inductive Transport where
  | rest
  | api
  deriving DecidableEq, Repr

/-- A write request as handed to Client.SendRequest: crud method, URL path and
the translated item payload. -/
structure Request where
  method : String
  path : String
  payload : DeviceItem
  deriving DecidableEq, Repr

/-- The crudPost method constant passed to SendRequest by resCreateUpdate. -/
def crudPost : String := "POST"

/-- The device/transport boundary as the resource handlers see it.
readItemsFiltered models ReadItemsFiltered (filter mapping and path in, list
of Device Items or a transport error out; buildReadFilter's serialisation of
the filter mapping is absorbed into this boundary). sendRequest models
Client.SendRequest and returns some error message on failure, none on
success. -/
structure Client where
  transport : Transport
  readItemsFiltered : List (String × String) → String → Except String (List DeviceItem)
  sendRequest : Request → Option String

/-- The terraform ResourceData visible to the handlers: the stored
synchronization identifier plus the declared field values. -/
structure ResourceData where
  id : String
  fields : List (String × String)
  deriving DecidableEq, Repr

/-- d.Get: the declared value of a field (empty string when unset). -/
def ResourceData.get (d : ResourceData) (k : String) : String :=
  (d.fields.lookup k).getD ""

/-- d.SetId: replace the stored synchronization identifier. -/
def ResourceData.setId (d : ResourceData) (i : String) : ResourceData :=
  { d with id := i }

/-- Environment of package-level state and external helpers the handlers read:
the global RouterOSVersion string, and the two translation helpers
TerraformResourceDataToMikrotik (declared record to device item; the metadata
path it also returns is the constant resource path) and
MikrotikResourceDataToTerraform (device item into the resource data, returning
the updated data and its diagnostics), which live outside the embedded files
and are therefore kept abstract. -/
structure Env where
  routerOSVersion : String
  terraformToMikrotik : ResourceData → DeviceItem
  mikrotikToTerraform : DeviceItem → ResourceData → ResourceData × List Diagnostic

/-- Result of running one CRUD handler: the resource data afterwards, the
diagnostics returned, whether the handler panicked, and the read filters and
write requests it issued against the device (its observable trace). -/
structure HandlerResult where
  d : ResourceData
  diags : List Diagnostic
  panicked : Bool
  readsIssued : List (List (String × String))
  writesIssued : List Request
  deriving DecidableEq, Repr

/-- Splits a character list on dots (the version-string segment separator). -/
def splitDots : List Char → List (List Char)
  | [] => [[]]
  | c :: rest =>
    if c = '.' then [] :: splitDots rest
    else
      match splitDots rest with
      | [] => [[c]]
      | g :: gs => (c :: g) :: gs

/-- Parses a nonempty all-digit character list as a decimal number. -/
def parseNatDigits (l : List Char) : Option Nat :=
  if l.isEmpty then none
  else if l.all Char.isDigit then
    some (l.foldl (fun n c => n * 10 + (c.toNat - 48)) 0)
  else none

/-- Modelled from the spec: parseRouterOSVersion (not under src/) parses a
dotted version string into a monotonically comparable integer, folding the
segments into lower-order digits; the source anchors the encoding with the
comment "ROS 7.19 => 463616", i.e. major * 65536 + minor * 256 + patch.
Strings that do not match the version grammar fail with none. -/
def parseRouterOSVersion (s : String) : Option Nat :=
  match (splitDots s.data).mapM parseNatDigits with
  | none => none
  | some [a] => some (a * 65536)
  | some [a, b] => some (a * 65536 + b * 256)
  | some [a, b, c] => some (a * 65536 + b * 256 + c)
  | some _ => none

/-- The resource path of this object type (MetaResourcePath default). -/
def resourceIpServicePath : String := "/ip/service"

/-- The read filter resRead builds: the natural-key clause name = numbers,
plus the clause dynamic = "false" exactly when the parsed version is at least
the 7.19 threshold 463616. -/
def readFilter (ver : Nat) (numbers : String) : List (String × String) :=
  if 463616 ≤ ver then [("name", numbers), ("dynamic", "false")]
  else [("name", numbers)]

/-- The resRead closure of ResourceIpService. It parses the global version
string (panicking on failure, before any device query), builds the
version-gated filter, queries the device, and handles the zero, one-or-more
match cases exactly as the source does: zero matches clear the identifier and
return diag.FromErr(errorNoLongerExists); otherwise the first item's
identifier is adopted and the item is translated into the resource data.
In the source the name clause is placed in the filter before the version is
parsed; the filter is local, so building it after the parse is observably
identical. -/
def resRead (env : Env) (d : ResourceData) (m : Client) : HandlerResult :=
  match parseRouterOSVersion env.routerOSVersion with
  | none =>
    { d := d, diags := [], panicked := true, readsIssued := [], writesIssued := [] }
  | some ver =>
    let filter := readFilter ver (d.get "numbers")
    match m.readItemsFiltered filter resourceIpServicePath with
    | Except.error e =>
      { d := d, diags := diagFromErr e, panicked := false,
        readsIssued := [filter], writesIssued := [] }
    | Except.ok [] =>
      { d := d.setId "", diags := diagFromErr errorNoLongerExists, panicked := false,
        readsIssued := [filter], writesIssued := [] }
    | Except.ok (item :: _) =>
      let d1 := d.setId item.getID
      let p := env.mikrotikToTerraform item d1
      { d := p.1, diags := p.2, panicked := false,
        readsIssued := [filter], writesIssued := [] }

/-- The single write request resCreateUpdate sends: crudPost to the resource
path, with the fixed "/set" action suffix appended when and only when the
client transport is REST, carrying the translated item as payload. -/
def serviceSetRequest (env : Env) (d : ResourceData) (m : Client) : Request :=
  { method := crudPost,
    path := resourceIpServicePath ++ (if m.transport = Transport.rest then "/set" else ""),
    payload := env.terraformToMikrotik d }

/-- The resCreateUpdate closure of ResourceIpService (used for both Create and
Update). It translates the declared data to an item, sets the identifier to
the declared numbers value BEFORE sending the write, sends the single write
request (path suffix "/set" under REST, bare path otherwise), returns
diag.FromErr on failure, and on success re-runs resRead. -/
def resCreateUpdate (env : Env) (d : ResourceData) (m : Client) : HandlerResult :=
  let req := serviceSetRequest env d m
  let d1 := d.setId (d.get "numbers")
  match m.sendRequest req with
  | some e =>
    { d := d1, diags := diagFromErr e, panicked := false,
      readsIssued := [], writesIssued := [req] }
  | none =>
    let r := resRead env d1 m
    { r with writesIssued := req :: r.writesIssued }

/-- Handler type shared by the CRUD contexts of a resource. -/
abbrev Handler := Env → ResourceData → Client → HandlerResult

/-- The CRUD wiring of a schema.Resource restricted to the contexts whose
implementations are in the embedded file: DeleteContext (DefaultSystemDelete)
and the importer wiring live outside src/ and are not modelled. -/
structure SchemaResource where
  createContext : Handler
  readContext : Handler
  updateContext : Handler

/-- ResourceIpService: CreateContext and UpdateContext are both wired to the
same resCreateUpdate closure, ReadContext to resRead. -/
def ResourceIpService : SchemaResource :=
  { createContext := resCreateUpdate,
    readContext := resRead,
    updateContext := resCreateUpdate }

/-- The address field's DiffSuppressFunc from the resource schema: it returns
false when oldValue is "" and newValue is "0.0.0.0/0", and otherwise reports
the values equal exactly when they are the same string. The k and d
parameters of the source signature are unused by the body; k is kept. -/
def addressDiffSuppressFunc (k oldValue newValue : String) : Bool :=
  if oldValue = "" ∧ newValue = "0.0.0.0/0" then false
  else oldValue == newValue

/-- An SSH session as Channel.run uses it: running a command yields the text
it wrote to the captured stdout buffer and whether it exited successfully.
Session creation failure is modelled at the connection (none). -/
structure SshSession where
  runCmd : String → String × Bool

/-- An SSH connection: NewSession either yields a session or fails. -/
structure SshConnection where
  newSession : Option SshSession

/-- Run from ssh.go: create a session (returning ("", error) on failure), run
the one command with stdout captured into a buffer, and return ("", error) if
the remote command fails, else the buffer contents with no error. The second
component models the Go error result (some message = non-nil error). -/
def SshConnection.Run (c : SshConnection) (cmd : String) : String × Option String :=
  match c.newSession with
  | none => ("", some "Failed to create session")
  | some session =>
    let r := session.runCmd cmd
    if r.2 then (r.1, none) else ("", some "Failed to run")

/-- Identifier characters accepted after the leading asterisk of a RouterOS
internal identifier (hexadecimal digits). -/
def isIdChar (c : Char) : Bool :=
  c.isDigit || (('A' ≤ c && c ≤ 'F') || ('a' ≤ c && c ≤ 'f'))

/-- Scans for the first token consisting of an asterisk followed by at least
one identifier character, returning it (asterisk included). -/
def reIdExtractAux : List Char → Option String
  | [] => none
  | c :: rest =>
    if c = '*' then
      let ds := rest.takeWhile isIdChar
      if ds.isEmpty then reIdExtractAux rest
      else some (String.mk ('*' :: ds))
    else reIdExtractAux rest

/-- Modelled from the spec: the fixed pattern reId (not under src/) whose
single submatch extracts from free-text command output an identifier token
conventionally beginning with an asterisk; returns the submatch when the
output contains one, none when it does not (the len(ss) != 2 miss case). -/
def reIdExtract (s : String) : Option String :=
  reIdExtractAux s.data

/-- The command string GetResourceId interpolates for one candidate field. -/
def resourceIdCommand (path filter : String) : String :=
  s!":put [{path} get [ find {filter} ]]"

/-- One loop iteration of GetResourceId, composed of the two miss cases: a
command error, or output in which the identifier pattern finds no match,
both yield none; otherwise the extracted identifier. -/
def fieldProbe (run : String → Except String String) (path f : String) : Option String :=
  match run (resourceIdCommand path f) with
  | Except.error _ => none
  | Except.ok res => reIdExtract res

/-- GetResourceId from ssh.go: iterate the candidate fields in order, keeping
the previous id on any per-field miss and overwriting it on every success
(last success wins); return the sentinel "?" when the id is still empty after
the loop. The connection's Run is passed as the run function. -/
def GetResourceId (run : String → Except String String) (path : String)
    (requiredFields : List String) : String :=
  let id := requiredFields.foldl
    (fun id f =>
      match fieldProbe run path f with
      | none => id
      | some s => s) ""
  if id = "" then "?" else id

/-! Sample environments, resource data and clients used to instantiate the
theorems on concrete inputs. -/

/-- A sample environment: version "7.19", identity-like translators. -/
def idEnv : Env :=
  { routerOSVersion := "7.19",
    terraformToMikrotik := fun _ => [],
    mikrotikToTerraform := fun _ d => (d, []) }

/-- Sample declared data: stored identifier "*OLD", numbers "ssh". -/
def svcData : ResourceData :=
  { id := "*OLD", fields := [("numbers", "ssh")] }

/-- A client whose read query returns two matching items. -/
def twoMatchClient : Client :=
  { transport := Transport.rest,
    readItemsFiltered := fun _ _ => Except.ok [[(".id", "*1")], [(".id", "*2")]],
    sendRequest := fun _ => none }

/-- A client whose read query returns zero matching items. -/
def zeroMatchClient : Client :=
  { transport := Transport.rest,
    readItemsFiltered := fun _ _ => Except.ok [],
    sendRequest := fun _ => none }

/-- A client whose write request always fails. -/
def failWriteClient : Client :=
  { transport := Transport.rest,
    readItemsFiltered := fun _ _ => Except.ok [],
    sendRequest := fun _ => some "write refused" }

/-- A client whose read query returns exactly one item and whose writes
succeed. -/
def oneMatchClient : Client :=
  { transport := Transport.rest,
    readItemsFiltered := fun _ _ => Except.ok [[(".id", "*5"), ("name", "ssh")]],
    sendRequest := fun _ => none }

/-- A sample environment whose global version string is unparseable. -/
def badVersionEnv : Env :=
  { idEnv with routerOSVersion := "bogus" }

/-- A run function for the resolver: only candidate field "B" answers with
output containing an identifier token; every other command errors. -/
def resolverRun : String → Except String String :=
  fun c => if c = resourceIdCommand "/ip/service" "B" then Except.ok "ret: *2A" else Except.error "no"

/-- A connection whose session creation always fails. -/
def deadConnection : SshConnection :=
  { newSession := none }

/-! Helper lemmas. -/

/-- resRead never issues a write request, in any branch. -/
theorem resRead_writesIssued (env : Env) (d : ResourceData) (m : Client) :
    (resRead env d m).writesIssued = [] := by
  unfold resRead
  split
  · rfl
  · dsimp only
    split <;> rfl

/-- Any identifier the pattern extracts is nonempty (it starts with the
asterisk). -/
theorem reIdExtractAux_ne_empty :
    ∀ (l : List Char) (i : String), reIdExtractAux l = some i → i ≠ ""
  | [], i, h => by simp [reIdExtractAux] at h
  | c :: rest, i, h => by
    simp only [reIdExtractAux] at h
    split at h
    · split at h
      · exact reIdExtractAux_ne_empty rest i h
      · injection h with h
        subst h
        intro hc
        have hdata := congrArg String.data hc
        simp at hdata
    · exact reIdExtractAux_ne_empty rest i h

/-- Any identifier reIdExtract returns is nonempty. -/
theorem reIdExtract_ne_empty (s i : String) (h : reIdExtract s = some i) : i ≠ "" :=
  reIdExtractAux_ne_empty s.data i h

/-- Any identifier a successful field probe yields is nonempty. -/
theorem fieldProbe_ne_empty (run : String → Except String String) (path f i : String)
    (h : fieldProbe run path f = some i) : i ≠ "" := by
  unfold fieldProbe at h
  split at h
  · exact absurd h (by simp)
  · exact reIdExtract_ne_empty _ i h

/-- Folding the GetResourceId loop over fields that all miss keeps the
accumulator unchanged. -/
theorem getResourceId_foldl_none (run : String → Except String String) (path : String) :
    ∀ (l : List String) (a : String), (∀ g ∈ l, fieldProbe run path g = none) →
      l.foldl
        (fun id f =>
          match fieldProbe run path f with
          | none => id
          | some s => s) a = a
  | [], _, _ => rfl
  | g :: gs, a, h => by
    simp only [List.foldl_cons]
    rw [h g (List.mem_cons_self g gs)]
    exact getResourceId_foldl_none run path gs a (fun x hx => h x (List.mem_cons_of_mem g hx))

/-- Folding the GetResourceId loop when the last success is field f with
identifier i: later fields all miss, so i survives to the end, whatever the
accumulator and the earlier fields did. -/
theorem getResourceId_foldl_last (run : String → Except String String) (path : String)
    (pre post : List String) (f i : String) (a : String)
    (hf : fieldProbe run path f = some i)
    (hpost : ∀ g ∈ post, fieldProbe run path g = none) :
    (pre ++ f :: post).foldl
      (fun id f =>
        match fieldProbe run path f with
        | none => id
        | some s => s) a = i := by
  rw [List.foldl_append, List.foldl_cons, hf]
  exact getResourceId_foldl_none run path post i hpost

/-! Claim theorems. -/

/-- C1 counterexample: a Read whose device query returns two matching items
does not report any error: it succeeds with empty diagnostics and adopts the
identifier of the first returned item ("*1"), contradicting the claim that
more than one match is reported as a DataConsistencyError without adopting
any returned identifier. -/
theorem C1_multi_match_counterexample :
    (resRead idEnv svcData twoMatchClient).d.id = "*1" ∧
    (resRead idEnv svcData twoMatchClient).diags = [] ∧
    (resRead idEnv svcData twoMatchClient).panicked = false := by
  decide

/-- C1 amended: for every Read whose device query returns more than one
matching item, the operation silently adopts the identifier of the FIRST
returned item and proceeds with the normal translation of that item; no
DataConsistencyError (indeed no extra diagnostic at all) is produced by the
multiplicity. -/
theorem C1_multi_match_amended (env : Env) (d : ResourceData) (m : Client)
    (ver : Nat) (i1 i2 : DeviceItem) (rest : List DeviceItem)
    (hv : parseRouterOSVersion env.routerOSVersion = some ver)
    (hq : m.readItemsFiltered (readFilter ver (d.get "numbers")) resourceIpServicePath
        = Except.ok (i1 :: i2 :: rest)) :
    resRead env d m =
      { d := (env.mikrotikToTerraform i1 (d.setId i1.getID)).1,
        diags := (env.mikrotikToTerraform i1 (d.setId i1.getID)).2,
        panicked := false,
        readsIssued := [readFilter ver (d.get "numbers")],
        writesIssued := [] } := by
  simp only [resRead, hv, hq]

/-- C1 amended witness: instantiated at a concrete two-item query result. -/
theorem C1_multi_match_amended_witness :
    resRead idEnv svcData twoMatchClient =
      { d := (idEnv.mikrotikToTerraform [(".id", "*1")]
                (svcData.setId (DeviceItem.getID [(".id", "*1")]))).1,
        diags := (idEnv.mikrotikToTerraform [(".id", "*1")]
                (svcData.setId (DeviceItem.getID [(".id", "*1")]))).2,
        panicked := false,
        readsIssued := [readFilter 463616 (svcData.get "numbers")],
        writesIssued := [] } :=
  C1_multi_match_amended idEnv svcData twoMatchClient 463616
    [(".id", "*1")] [(".id", "*2")] [] (by decide) rfl

/-- C2 counterexample: a declared (new) address "" against a live (old) value
"0.0.0.0/0" is NOT suppressed by the field's diff-suppression predicate (it
returns false, in either argument orientation), contradicting the claim that
this discrepancy is suppressed. -/
theorem C2_diff_suppress_counterexample :
    addressDiffSuppressFunc "address" "0.0.0.0/0" "" = false ∧
    addressDiffSuppressFunc "address" "" "0.0.0.0/0" = false := by
  decide

/-- C2 amended: the address diff-suppression predicate treats a declared
value of "" as NOT equal to a live value of "0.0.0.0/0" (the discrepancy is
reported, in either argument orientation), and treats a declared value of ""
as NOT equal to a live value of "10.0.0.0/24" (the discrepancy is reported,
in either argument orientation). -/
theorem C2_diff_suppress_amended :
    addressDiffSuppressFunc "address" "0.0.0.0/0" "" = false ∧
    addressDiffSuppressFunc "address" "" "0.0.0.0/0" = false ∧
    addressDiffSuppressFunc "address" "10.0.0.0/24" "" = false ∧
    addressDiffSuppressFunc "address" "" "10.0.0.0/24" = false := by
  decide

/-- C3 counterexample: a Read whose device query returns zero items does
clear the stored identifier, but it reports the "no longer exists" condition
as an Error-severity diagnostic (diag.FromErr), i.e. a hard error of the
operation, contradicting the claim that only an informational condition and
never a hard error is reported. -/
theorem C3_zero_match_counterexample :
    (resRead idEnv svcData zeroMatchClient).d.id = "" ∧
    (resRead idEnv svcData zeroMatchClient).diags
      = [⟨Severity.error, errorNoLongerExists⟩] := by
  decide

/-- C3 amended: for every Read whose device query returns zero matching
items, the stored identifier is cleared AND the operation returns
diag.FromErr(errorNoLongerExists): a single Error-severity "no longer
exists" diagnostic, i.e. a hard error rather than a merely informational
condition. -/
theorem C3_zero_match_amended (env : Env) (d : ResourceData) (m : Client) (ver : Nat)
    (hv : parseRouterOSVersion env.routerOSVersion = some ver)
    (hq : m.readItemsFiltered (readFilter ver (d.get "numbers")) resourceIpServicePath
        = Except.ok []) :
    (resRead env d m).d = d.setId "" ∧
    (resRead env d m).diags = [⟨Severity.error, errorNoLongerExists⟩] := by
  simp [resRead, hv, hq, diagFromErr]

/-- C3 amended witness: instantiated at a concrete zero-item query result. -/
theorem C3_zero_match_amended_witness :
    (resRead idEnv svcData zeroMatchClient).d = svcData.setId "" ∧
    (resRead idEnv svcData zeroMatchClient).diags
      = [⟨Severity.error, errorNoLongerExists⟩] :=
  C3_zero_match_amended idEnv svcData zeroMatchClient 463616 (by decide) rfl

/-- C4: the Identifier Resolver tolerates per-field misses (command error or
output without an identifier token), returns the identifier of the last
successful candidate in iteration order whatever the earlier candidates did,
and returns the sentinel "?" when every candidate misses; being a total
function, it never raises. -/
theorem C4_resolver (run : String → Except String String) (path : String)
    (pre post fields0 : List String) (f i : String)
    (hf : fieldProbe run path f = some i)
    (hpost : ∀ g ∈ post, fieldProbe run path g = none)
    (hnone : ∀ g ∈ fields0, fieldProbe run path g = none) :
    GetResourceId run path (pre ++ f :: post) = i ∧
    GetResourceId run path fields0 = "?" := by
  constructor
  · simp only [GetResourceId]
    rw [getResourceId_foldl_last run path pre post f i "" hf hpost]
    rw [if_neg (fieldProbe_ne_empty run path f i hf)]
  · simp only [GetResourceId]
    rw [getResourceId_foldl_none run path fields0 "" hnone]
    rfl

/-- C4 witness: with candidates [A, B, C] where only B succeeds (with
identifier *2A) the resolver returns *2A, and with candidates [A, C] where
none succeeds it returns the sentinel "?". -/
theorem C4_resolver_witness :
    GetResourceId resolverRun "/ip/service" (["A"] ++ "B" :: ["C"]) = "*2A" ∧
    GetResourceId resolverRun "/ip/service" ["A", "C"] = "?" :=
  C4_resolver resolverRun "/ip/service" ["A"] ["C"] ["A", "C"] "B" "*2A"
    (by decide) (by decide) (by decide)

/-- C5: for every Read with a parseable version, the one issued query uses
the filter readFilter ver numbers, which contains the clause
("dynamic", "false") exactly when the parsed version is at least the 7.19
threshold 463616; in particular "7.16" parses below the threshold and its
filter lacks the clause, while "7.19" parses to exactly the threshold and its
filter contains it. -/
theorem C5_version_gate (env : Env) (d : ResourceData) (m : Client) (ver : Nat)
    (hv : parseRouterOSVersion env.routerOSVersion = some ver) :
    (resRead env d m).readsIssued = [readFilter ver (d.get "numbers")] ∧
    (("dynamic", "false") ∈ readFilter ver (d.get "numbers") ↔ 463616 ≤ ver) ∧
    parseRouterOSVersion "7.16" = some 462848 ∧
    ("dynamic", "false") ∉ readFilter 462848 (d.get "numbers") ∧
    parseRouterOSVersion "7.19" = some 463616 ∧
    ("dynamic", "false") ∈ readFilter 463616 (d.get "numbers") := by
  refine ⟨?_, ?_, by decide, ?_, by decide, ?_⟩
  · simp only [resRead, hv]
    split <;> rfl
  · by_cases h : 463616 ≤ ver
    · simp [readFilter, h]
    · simp [readFilter, h]
  · simp [readFilter]
  · simp [readFilter]

/-- C5 witness: instantiated at the sample "7.19" environment. -/
theorem C5_version_gate_witness :
    (resRead idEnv svcData oneMatchClient).readsIssued
      = [readFilter 463616 (svcData.get "numbers")] ∧
    (("dynamic", "false") ∈ readFilter 463616 (svcData.get "numbers") ↔ 463616 ≤ 463616) ∧
    parseRouterOSVersion "7.16" = some 462848 ∧
    ("dynamic", "false") ∉ readFilter 462848 (svcData.get "numbers") ∧
    parseRouterOSVersion "7.19" = some 463616 ∧
    ("dynamic", "false") ∈ readFilter 463616 (svcData.get "numbers") :=
  C5_version_gate idEnv svcData oneMatchClient 463616 (by decide)

/-- C6: for every Read where parsing the device version string fails, the
operation panics immediately: it issues no device query at all (so in
particular no query with an ungated filter), returns no diagnostics (the
failure is a panic, not a silently ignored condition), and leaves the
resource data untouched. -/
theorem C6_parse_failure (env : Env) (d : ResourceData) (m : Client)
    (hv : parseRouterOSVersion env.routerOSVersion = none) :
    resRead env d m =
      { d := d, diags := [], panicked := true, readsIssued := [], writesIssued := [] } := by
  simp only [resRead, hv]

/-- C6 witness: instantiated at an unparseable version string. -/
theorem C6_parse_failure_witness :
    resRead badVersionEnv svcData oneMatchClient =
      { d := svcData, diags := [], panicked := true, readsIssued := [], writesIssued := [] } :=
  C6_parse_failure badVersionEnv svcData oneMatchClient (by decide)

/-- C7: the Create operation and the Update operation of ResourceIpService
are the very same function (both contexts are wired to resCreateUpdate), so
they execute an identical code path and produce identical requests and
results on every input. -/
theorem C7_create_update_same :
    ResourceIpService.createContext = ResourceIpService.updateContext :=
  rfl

/-- C8 counterexample: with a stored identifier "*OLD" and declared numbers
"ssh", a create/update whose write request fails leaves the stored
identifier equal to "ssh", not to its previous value "*OLD": the identifier
is assigned before the write, contradicting the claim that on a failed write
it is left unchanged. -/
theorem C8_id_on_failure_counterexample :
    svcData.id = "*OLD" ∧
    (resCreateUpdate idEnv svcData failWriteClient).d.id = "ssh" ∧
    ("ssh" : String) ≠ "*OLD" := by
  decide

/-- C8 amended: resCreateUpdate assigns the stored identifier (to the
declared numbers value) BEFORE issuing the write request; when the write
fails, the operation returns the write error and the stored identifier is
the numbers value, regardless of its value before the operation. -/
theorem C8_id_on_failure_amended (env : Env) (d : ResourceData) (m : Client) (e : String)
    (h : m.sendRequest (serviceSetRequest env d m) = some e) :
    resCreateUpdate env d m =
      { d := d.setId (d.get "numbers"), diags := diagFromErr e, panicked := false,
        readsIssued := [], writesIssued := [serviceSetRequest env d m] } := by
  simp only [resCreateUpdate, h]

/-- C8 amended witness: instantiated at a concrete failing write. -/
theorem C8_id_on_failure_amended_witness :
    resCreateUpdate idEnv svcData failWriteClient =
      { d := svcData.setId (svcData.get "numbers"), diags := diagFromErr "write refused",
        panicked := false, readsIssued := [],
        writesIssued := [serviceSetRequest idEnv svcData failWriteClient] } :=
  C8_id_on_failure_amended idEnv svcData failWriteClient "write refused" rfl

/-- C9: every create/update issues exactly one write request, addressed to
the object path with the fixed "/set" suffix appended when the transport is
REST and to the bare object path otherwise; and when the write succeeds the
operation is exactly a re-run of Read (on the data with the identifier set),
with the write request recorded in the trace. -/
theorem C9_endpoint_and_reread (env : Env) (d : ResourceData) (m : Client)
    (hok : m.sendRequest (serviceSetRequest env d m) = none) :
    (serviceSetRequest env d m).path
      = resourceIpServicePath ++ (if m.transport = Transport.rest then "/set" else "") ∧
    (resCreateUpdate env d m).writesIssued = [serviceSetRequest env d m] ∧
    resCreateUpdate env d m =
      { resRead env (d.setId (d.get "numbers")) m with
        writesIssued := [serviceSetRequest env d m] } := by
  refine ⟨rfl, ?_, ?_⟩
  · simp only [resCreateUpdate, hok, resRead_writesIssued]
  · simp only [resCreateUpdate, hok, resRead_writesIssued]

/-- C9 witness: instantiated at a REST client whose write succeeds. -/
theorem C9_endpoint_and_reread_witness :
    (serviceSetRequest idEnv svcData oneMatchClient).path
      = resourceIpServicePath
        ++ (if oneMatchClient.transport = Transport.rest then "/set" else "") ∧
    (resCreateUpdate idEnv svcData oneMatchClient).writesIssued
      = [serviceSetRequest idEnv svcData oneMatchClient] ∧
    resCreateUpdate idEnv svcData oneMatchClient =
      { resRead idEnv (svcData.setId (svcData.get "numbers")) oneMatchClient with
        writesIssued := [serviceSetRequest idEnv svcData oneMatchClient] } :=
  C9_endpoint_and_reread idEnv svcData oneMatchClient rfl

/-- C10: whenever Channel.run returns an error (session creation failed or
the remote command returned nonzero), the output text it returns is the
empty string: a caller never observes captured output together with an
error. -/
theorem C10_run_error_empty_output (c : SshConnection) (cmd e : String)
    (h : (SshConnection.Run c cmd).2 = some e) :
    (SshConnection.Run c cmd).1 = "" := by
  unfold SshConnection.Run at h ⊢
  cases hs : c.newSession with
  | none => rfl
  | some s =>
    by_cases hb : (s.runCmd cmd).2 = true
    · simp [hs, hb] at h
    · simp [hb]

/-- C10 witness: instantiated at a connection whose session creation
fails. -/
theorem C10_run_error_empty_output_witness :
    (SshConnection.Run deadConnection "/export terse").1 = "" :=
  C10_run_error_empty_output deadConnection "/export terse" "Failed to create session" rfl

end RouterOS
